import Mathlib

/-!
Shallow embedding of the resolver logic of the graphql-backend repository.

The repository contains two variants of the same Apollo/Mongoose server:
variant A is `src/library-backend.js` (computed-on-read book counts, with a
PubSub notification channel) and variant B is `src/unnamed/part_000`
(incremented-on-write book counts, no subscriptions).

The document store is modelled as in-memory lists in their Mongo natural
(insertion) order; `find` / `findOne` / `findById` / `save` /
`findByIdAndUpdate` are translated at each use site.  The Mongoose model
files (`models/book.js`, `models/author.js`, `models/user.js`) are not part
of the sources; the record types below are modelled from the specification
(section 3, DATA MODEL): a Book has title, published, author (a reference to
an Author), genres; an Author has name, born and - in the variant that
stores it - bookCount; a User has username and favoriteGenre.  Identities
are system generated; they are modelled by a per-store fresh counter
`nextId`, and the value held by a Book in its author field is modelled by
`Ref`, which is either a generated object id or a raw string (variant B
writes the author NAME string into that field via the argument spread).

JWT signing is modelled symbolically: a signed token is a payload together
with the secret it was signed with, and verification succeeds exactly when
the secrets match, yielding the payload back.
-/

namespace LibraryBackend

/-- A value stored in the author field of a Book document: either a
generated object id or a raw string written there by the code. -/
inductive Ref where
  | oid (n : Nat)
  | str (s : String)
deriving DecidableEq, Repr

/-- Author document.  Modelled from the spec: name required, born optional,
bookCount optional (variant B stores it, variant A never writes it). -/
structure Author where
  id : Nat
  name : String
  born : Option Int
  bookCount : Option Int
deriving DecidableEq, Repr

/-- Book document.  Modelled from the spec: title, published, author
reference, genres. -/
structure Book where
  id : Nat
  title : String
  published : Int
  author : Ref
  genres : List String
deriving DecidableEq, Repr

/-- User document.  Modelled from the spec: username and favoriteGenre; no
password is stored. -/
structure User where
  id : Nat
  username : String
  favoriteGenre : String
deriving DecidableEq, Repr

/-- The document store: the three collections in natural (insertion) order,
plus the source of fresh generated ids. -/
structure Store where
  authors : List Author
  books : List Book
  users : List User
  nextId : Nat
deriving DecidableEq, Repr

/-- Arguments of the addBook mutation (all four are non null in the
schema). -/
structure AddBookArgs where
  title : String
  published : Int
  author : String
  genres : List String
deriving DecidableEq, Repr

/-- The invalidArgs payload attached to a UserInputError at the three throw
sites that pass one. -/
inductive ErrArgs where
  | noArgs
  | bookArgs (a : AddBookArgs)
  | authorArgs (name : String) (setBornTo : Int)
deriving DecidableEq, Repr

/-- The errors a resolver run can surface: the two apollo-server error
classes thrown by the code, the JavaScript runtime errors the code can hit
(dereferencing the undefined variable `books`, calling a method of an
undefined property), and a failed jwt.verify. -/
inductive JsError where
  | authenticationError (msg : String)
  | userInputError (msg : String) (invalidArgs : ErrArgs)
  | referenceError (msg : String)
  | typeError (msg : String)
  | jwtInvalid
deriving DecidableEq, Repr

/-- Outcome oracle for the data-store save operations inside one addBook
call: `none` means the save succeeds, `some msg` means it fails (rejects)
with that message.  `authorSave` covers the save of the author document
(creation or increment), `bookSave` the save of the book document. -/
structure SaveOutcome where
  authorSave : Option String
  bookSave : Option String
deriving DecidableEq, Repr

/-- Both saves succeed. -/
def noFail : SaveOutcome := ⟨none, none⟩

/-- JavaScript truthiness of an optional string GraphQL argument: absent and
the empty string are falsy. -/
def jsTruthy : Option String → Bool
  | none => false
  | some s => !(s == "")

/-- The value a named field holds on a stored Book document (the documents
have exactly the four schema fields plus the generated id). -/
inductive FieldVal where
  | str (s : String)
  | int (n : Int)
  | ref (r : Ref)
  | strList (l : List String)
deriving DecidableEq, Repr

/-- Field lookup on a Book document by field name, as the Mongo query
engine sees it.  A Book document has no field named `genre` (the schema
field is `genres`), so a query on `genre` finds nothing to match. -/
def Book.getField (b : Book) : String → Option FieldVal
  | "title" => some (.str b.title)
  | "published" => some (.int b.published)
  | "author" => some (.ref b.author)
  | "genres" => some (.strList b.genres)
  | _ => none

/-- Semantics of a Mongo filter `\x7b field: \x7b $in: [g] \x7d \x7d` on one
document: matches when the field holds g, or holds an array containing g;
an absent field matches nothing (the $in list contains no null). -/
def mongoInMatch (v : Option FieldVal) (g : String) : Bool :=
  match v with
  | some (.str s) => s == g
  | some (.strList l) => l.contains g
  | _ => false

/- ----------------------------------------------------------------------
Variant A: src/library-backend.js
---------------------------------------------------------------------- -/

/-- Variant A allBooks (src/library-backend.js lines 90-100).
With both arguments truthy, or the author argument alone, the body reads
the variable `books`, which is defined nowhere: a ReferenceError.  With the
genre argument alone it runs `Book.find(\x7b genre: \x7b $in: [args.genre]
\x7d \x7d)`: the query key is `genre` while the documents carry `genres`.
With neither it returns every Book. -/
def allBooksA (s : Store) (author genre : Option String) :
    Except JsError (List Book) :=
  if jsTruthy author && jsTruthy genre then
    .error (.referenceError "books is not defined")
  else if jsTruthy author then
    .error (.referenceError "books is not defined")
  else if jsTruthy genre then
    .ok (s.books.filter (fun b => mongoInMatch (b.getField "genre") (genre.getD "")))
  else
    .ok s.books

/-- The object variant A allAuthors returns for each author: name, born, id
and the bookCount recomputed by scanning every Book. -/
structure AuthorView where
  name : String
  born : Option Int
  id : Nat
  bookCount : Nat
deriving DecidableEq, Repr

/-- Variant A allAuthors (src/library-backend.js lines 101-113): fetches
every Author and every Book, and maps each author to a view whose bookCount
is the number of books whose author field equals that author generated id
(`author._id.equals(book.author)` is false when the book field holds a raw
string). -/
def allAuthorsA (s : Store) : List AuthorView :=
  s.authors.map (fun a =>
    ⟨a.name, a.born, a.id,
      (s.books.filter (fun b => decide (b.author = Ref.oid a.id))).length⟩)

deriving instance DecidableEq for Except

/-- The event published on the BOOK_ADDED topic: the created book object,
onto which the code has written the resolved author name and id. -/
structure PubEvent where
  book : Book
  authorName : String
  authorId : Nat
deriving DecidableEq, Repr

/-- Result of one variant A addBook call: the value returned or error
thrown, the store afterwards, and the published event if any. -/
structure AddBookAOut where
  result : Except JsError Book
  store : Store
  published : Option PubEvent
deriving DecidableEq, Repr

/-- Variant A addBook (src/library-backend.js lines 119-148).  Throws
AuthenticationError when the context carries no user.  Looks the Author up
by name; inside the try block, creates and saves it when absent, then
creates the Book with the author field set to the found-or-created author
id and saves it; a failing save is caught and rethrown as a UserInputError
carrying the arguments.  On success it publishes the book with the author
name and id written onto it, and returns the book. -/
def addBookA (s : Store) (currentUser : Option User) (args : AddBookArgs)
    (sf : SaveOutcome) : AddBookAOut :=
  match currentUser with
  | none => ⟨.error (.authenticationError "not authenticated"), s, none⟩
  | some _ =>
    match s.authors.find? (fun a => decide (a.name = args.author)) with
    | none =>
      match sf.authorSave with
      | some msg => ⟨.error (.userInputError msg (.bookArgs args)), s, none⟩
      | none =>
        let author : Author := ⟨s.nextId, args.author, none, none⟩
        let s1 : Store := { s with authors := s.authors ++ [author],
                                   nextId := s.nextId + 1 }
        match sf.bookSave with
        | some msg => ⟨.error (.userInputError msg (.bookArgs args)), s1, none⟩
        | none =>
          let book : Book := ⟨s1.nextId, args.title, args.published,
                              Ref.oid author.id, args.genres⟩
          let s2 : Store := { s1 with books := s1.books ++ [book],
                                      nextId := s1.nextId + 1 }
          ⟨.ok book, s2, some ⟨book, author.name, author.id⟩⟩
    | some isAuthor =>
      match sf.bookSave with
      | some msg => ⟨.error (.userInputError msg (.bookArgs args)), s, none⟩
      | none =>
        let book : Book := ⟨s.nextId, args.title, args.published,
                            Ref.oid isAuthor.id, args.genres⟩
        let s2 : Store := { s with books := s.books ++ [book],
                                   nextId := s.nextId + 1 }
        ⟨.ok book, s2, some ⟨book, isAuthor.name, isAuthor.id⟩⟩

/-- Result of one editAuthor call: the value returned or error thrown, and
the store afterwards. -/
structure MutOut where
  result : Except JsError (Option Author)
  store : Store
deriving DecidableEq, Repr

/-- Variant A editAuthor (src/library-backend.js lines 149-175).  Throws
AuthenticationError when unauthenticated.  Inside the try block it runs
`Author.find(\x7b name: \x7b $in: args.name \x7d \x7d)`, which yields an
ARRAY (the scalar $in operand is read as membership in its singleton, the
reading most favourable to the spec); the guard `if (!author) return null`
never fires because a JavaScript array is always truthy, so on an unknown
name the code reads `author[0].name` of an undefined element: the TypeError
is caught and rethrown as a UserInputError.  On a known name it updates the
document by id - the update object sets name to the same name and born to
setBornTo; its `id` key is not a schema path and is dropped - and then
falls off the end of the function, returning undefined (modelled as a
successful `none`). -/
def editAuthorA (s : Store) (currentUser : Option User) (name : String)
    (setBornTo : Int) (save : Option String) : MutOut :=
  match currentUser with
  | none => ⟨.error (.authenticationError "not authenticated"), s⟩
  | some _ =>
    let found := s.authors.filter (fun a => decide (a.name = name))
    match found.head? with
    | none =>
      ⟨.error (.userInputError "cannot read property of undefined"
                (.authorArgs name setBornTo)), s⟩
    | some a0 =>
      match save with
      | some msg => ⟨.error (.userInputError msg (.authorArgs name setBornTo)), s⟩
      | none =>
        let s2 : Store := { s with authors := s.authors.map (fun a =>
          if a.id = a0.id then { a with born := some setBornTo } else a) }
        ⟨.ok none, s2⟩

/- ----------------------------------------------------------------------
Variant B: src/unnamed/part_000
---------------------------------------------------------------------- -/

/-- Variant B allBooks (src/unnamed/part_000 lines 85-95).  The author
branches read the undefined variable `books` (ReferenceError); the genre
branch calls `Book.inventory.find`, and a Mongoose model has no `inventory`
property (TypeError); with neither filter it returns every Book. -/
def allBooksB (s : Store) (author genre : Option String) :
    Except JsError (List Book) :=
  if jsTruthy author && jsTruthy genre then
    .error (.referenceError "books is not defined")
  else if jsTruthy author then
    .error (.referenceError "books is not defined")
  else if jsTruthy genre then
    .error (.typeError "cannot read property find of undefined")
  else
    .ok s.books

/-- Variant B allAuthors (src/unnamed/part_000 line 96): returns the stored
Author documents as they are, stored bookCount included. -/
def allAuthorsB (s : Store) : List Author := s.authors

/-- JavaScript increment of a possibly-absent numeric field:
`undefined + 1` is NaN, modelled as carrying no numeric value. -/
def bumpCount : Option Int → Option Int
  | some n => some (n + 1)
  | none => none

/-- Result of one variant B addBook call. -/
structure AddBookBOut where
  result : Except JsError Book
  store : Store
deriving DecidableEq, Repr

/-- Variant B addBook (src/unnamed/part_000 lines 102-125).  The Book
document is constructed from the spread arguments BEFORE the auth check, so
its author field receives the author NAME string, not an id.  After the
auth check it looks the Author up by name; inside the try block it either
creates an Author with bookCount 1 or increments the stored bookCount of
the found one, and saves the book.  None of the three save() calls is
awaited, so a rejected save is an unhandled promise rejection: the catch
block never fires, the corresponding document is simply not persisted, and
the book object is returned regardless. -/
def addBookB (s : Store) (currentUser : Option User) (args : AddBookArgs)
    (sf : SaveOutcome) : AddBookBOut :=
  let book : Book := ⟨s.nextId, args.title, args.published,
                      Ref.str args.author, args.genres⟩
  match currentUser with
  | none => ⟨.error (.authenticationError "not authenticated"), s⟩
  | some _ =>
    match s.authors.find? (fun a => decide (a.name = args.author)) with
    | none =>
      let author : Author := ⟨s.nextId + 1, args.author, none, some 1⟩
      let authors1 := match sf.authorSave with
        | some _ => s.authors
        | none => s.authors ++ [author]
      let books1 := match sf.bookSave with
        | some _ => s.books
        | none => s.books ++ [book]
      ⟨.ok book, { s with authors := authors1, books := books1,
                          nextId := s.nextId + 2 }⟩
    | some isAuthor =>
      let authors1 := match sf.authorSave with
        | some _ => s.authors
        | none => s.authors.map (fun a =>
            if a.id = isAuthor.id then
              { a with bookCount := bumpCount a.bookCount } else a)
      let books1 := match sf.bookSave with
        | some _ => s.books
        | none => s.books ++ [book]
      ⟨.ok book, { s with authors := authors1, books := books1,
                          nextId := s.nextId + 1 }⟩

/-- Variant B editAuthor (src/unnamed/part_000 lines 126-144).  Throws
AuthenticationError when unauthenticated.  The lookup is
`Author.findOne(\x7b name: args.author \x7d)` - but editAuthor receives
`name` and `setBornTo`, never `author`, so the filter value is undefined;
Mongoose strips undefined filter values, leaving `findOne(\x7b\x7d)`, which
yields the FIRST Author document in natural order, whatever the name
argument was.  When the collection is empty it returns null; otherwise it
sets born on that first document, saves it (not awaited: a failing save is
unobserved and leaves the document unpersisted), and returns the mutated
document. -/
def editAuthorB (s : Store) (currentUser : Option User) (name : String)
    (setBornTo : Int) (save : Option String) : MutOut :=
  match currentUser with
  | none => ⟨.error (.authenticationError "not authenticated"), s⟩
  | some _ =>
    match s.authors.head? with
    | none => ⟨.ok none, s⟩
    | some a0 =>
      let a1 : Author := { a0 with born := some setBornTo }
      let authors1 := match save with
        | some _ => s.authors
        | none => s.authors.map (fun a => if a.id = a0.id then a1 else a)
      ⟨.ok (some a1), { s with authors := authors1 }⟩

/- ----------------------------------------------------------------------
Shared: login and per-request context construction (identical in the two
files).
---------------------------------------------------------------------- -/

/-- The payload jwt.sign is given: the username and generated id of the
logged-in user. -/
structure JwtPayload where
  username : String
  id : Nat
deriving DecidableEq, Repr

/-- A signed token, modelled symbolically as its payload together with the
secret used to sign it. -/
structure Jwt where
  payload : JwtPayload
  secret : String
deriving DecidableEq, Repr

/-- Symbolic jwt.sign. -/
def jwtSign (p : JwtPayload) (secret : String) : Jwt := ⟨p, secret⟩

/-- Symbolic jwt.verify: yields the payload exactly when the token was
signed with the expected secret, and throws otherwise. -/
def jwtVerify (t : Jwt) (secret : String) : Except JsError JwtPayload :=
  if t.secret = secret then .ok t.payload else .error .jwtInvalid

/-- The Token object the login mutation returns. -/
structure Token where
  value : Jwt
deriving DecidableEq, Repr

/-- login (identical in both files; src/library-backend.js lines 186-199).
Looks the User up by username; when absent, or when the password is not the
fixed string "password", throws UserInputError "wrong credentials";
otherwise returns a Token signing that username and id. -/
def login (s : Store) (secret username passwd : String) :
    Except JsError Token :=
  match s.users.find? (fun u => decide (u.username = username)) with
  | none => .error (.userInputError "wrong credentials" .noArgs)
  | some user =>
    if passwd = "password" then
      .ok ⟨jwtSign ⟨user.username, user.id⟩ secret⟩
    else
      .error (.userInputError "wrong credentials" .noArgs)

/-- The case-insensitive bearer-marker test the context function performs,
`auth.toLowerCase().startsWith("bearer ")`, expressed on the character
sequence of the header text (toLowerCase maps every character to lower
case; startsWith is sequence-prefix). -/
def hasBearerMarker (s : String) : Bool :=
  "bearer ".data.isPrefixOf (s.data.map Char.toLower)

/-- The raw Authorization header of a request: its full text, and, when the
text from character 7 on is a token issued by jwtSign, that token (tokens
being symbolic, the part after `auth.substring(7)` is carried alongside the
text rather than re-parsed from it). -/
structure AuthHeader where
  text : String
  token : Option Jwt
deriving DecidableEq, Repr

/-- Per-request context construction (identical in both files;
src/library-backend.js lines 211-220).  When the header is absent, or its
text does not start case-insensitively with "bearer ", the function falls
through and the context carries no user.  Otherwise jwt.verify runs on the
part after the prefix: an invalid token propagates the verification error,
and a valid one yields a payload whose id is looked up with
`User.findById`, the result being attached as currentUser. -/
def buildContext (s : Store) (secret : String) (auth : Option AuthHeader) :
    Except JsError (Option User) :=
  match auth with
  | none => .ok none
  | some h =>
    if hasBearerMarker h.text then
      match h.token with
      | none => .error .jwtInvalid
      | some t =>
        match jwtVerify t secret with
        | .error e => .error e
        | .ok p => .ok (s.users.find? (fun u => decide (u.id = p.id)))
    else
      .ok none

/- ----------------------------------------------------------------------
Well-formedness of generated ids, and scenario observations.
---------------------------------------------------------------------- -/

/-- An author-field reference is below the fresh-id bound when it is a
generated id; a raw string is not a generated id at all. -/
def Ref.oidLt : Ref → Nat → Bool
  | .oid k, n => decide (k < n)
  | .str _, _ => true

/-- Freshness of generated ids: every stored id, and every generated id a
Book refers to, is below the fresh counter.  Every store the system builds
satisfies this, since Mongo never reissues an object id. -/
def Store.WF (s : Store) : Prop :=
  (∀ a ∈ s.authors, a.id < s.nextId) ∧ (∀ b ∈ s.books, b.author.oidLt s.nextId = true)

instance (s : Store) : Decidable s.WF := by
  unfold Store.WF; infer_instance

/-- The bookCounts variant A reports for the authors named Tolkien. -/
def tolkienCountsA (s : Store) : List Nat :=
  ((allAuthorsA s).filter (fun v => decide (v.name = "Tolkien"))).map
    (fun v => v.bookCount)

/-- The stored bookCounts variant B reports for the authors named
Tolkien. -/
def tolkienCountsB (s : Store) : List (Option Int) :=
  ((allAuthorsB s).filter (fun a => decide (a.name = "Tolkien"))).map
    (fun a => a.bookCount)

/-- Fixture: the arguments of the first scenario call. -/
def hobbitArgs : AddBookArgs := ⟨"The Hobbit", 1937, "Tolkien", ["fantasy"]⟩

/-- Fixture: the empty store. -/
def emptyStore : Store := ⟨[], [], [], 0⟩

/-- Fixture: an authenticated user. -/
def bob : User := ⟨100, "bob", "science fiction"⟩

/-- Fixture: a store with one author (id 0, name Tolkien) and one book
(id 1, genres containing fantasy, referring to that author). -/
def libStore : Store :=
  ⟨[⟨0, "Tolkien", none, none⟩],
   [⟨1, "The Hobbit", 1937, Ref.oid 0, ["fantasy"]⟩], [], 2⟩

/-- Fixture: a store with one user (id 5, username alice). -/
def userStore : Store := ⟨[], [], [⟨5, "alice", "fantasy"⟩], 6⟩

/-- Fixture: the arguments of the second scenario call (same author name,
different book). -/
def silmarilArgs : AddBookArgs := ⟨"The Silmarillion", 1977, "Tolkien", ["fantasy"]⟩

/-- Everything the Tolkien scenario observes, for both variants: after the
first authenticated addBook there is exactly one Author named Tolkien and
its reported bookCount is 1; after a second authenticated addBook with the
same author name there is still exactly one, with reported bookCount 2. -/
def tolkienScenarioHolds (s : Store) (u : User) (args2 : AddBookArgs) : Prop :=
  tolkienCountsA (addBookA s (some u) hobbitArgs noFail).store = [1] ∧
  tolkienCountsA (addBookA (addBookA s (some u) hobbitArgs noFail).store
    (some u) args2 noFail).store = [2] ∧
  tolkienCountsB (addBookB s (some u) hobbitArgs noFail).store = [some 1] ∧
  tolkienCountsB (addBookB (addBookB s (some u) hobbitArgs noFail).store
    (some u) args2 noFail).store = [some 2]

/- ----------------------------------------------------------------------
Helper lemmas.
---------------------------------------------------------------------- -/

/-- A reference bounded by the fresh counter is not the id the counter is
about to hand out (nor any later one). -/
theorem Ref.oidLt_ne_fresh {r : Ref} {n m : Nat} (h : r.oidLt n = true)
    (hnm : n ≤ m) : decide (r = Ref.oid m) = false := by
  cases r with
  | oid k =>
    simp only [Ref.oidLt, decide_eq_true_eq] at h
    have hk : k ≠ m := Nat.ne_of_lt (lt_of_lt_of_le h hnm)
    simp [hk]
  | str s => simp

/-- Books bounded by the fresh counter contribute nothing to the count of
books referring to a fresh id. -/
theorem filter_fresh_eq_nil {l : List Book} {n m : Nat}
    (h : ∀ b ∈ l, b.author.oidLt n = true) (hnm : n ≤ m) :
    l.filter (fun b => decide (b.author = Ref.oid m)) = [] :=
  List.filter_eq_nil_iff.mpr (fun b hb => by
    simp [Ref.oidLt_ne_fresh (h b hb) hnm])

/-- Variant A reports, for the authors named Tolkien, exactly the count of
books whose author field equals their generated id. -/
theorem tolkienCountsA_eq (s : Store) :
    tolkienCountsA s =
      (s.authors.filter (fun a => decide (a.name = "Tolkien"))).map
        (fun a => (s.books.filter
          (fun b => decide (b.author = Ref.oid a.id))).length) := by
  unfold tolkienCountsA allAuthorsA
  rw [List.filter_map, List.map_map]
  rfl

/-- A name-preserving rewrite of the author collection commutes with
filtering the authors named Tolkien. -/
theorem filter_tolkien_map (f : Author → Author)
    (hf : ∀ a, (f a).name = a.name) (l : List Author) :
    (l.map f).filter (fun a => decide (a.name = "Tolkien")) =
      (l.filter (fun a => decide (a.name = "Tolkien"))).map f := by
  rw [List.filter_map]
  congr 1
  apply List.filter_congr
  intro a _
  simp [hf]

/- ----------------------------------------------------------------------
Claim theorems.
---------------------------------------------------------------------- -/

/-- C1.  Refuted on variant B: starting from the empty store, one
authenticated addBook for the new author Tolkien leaves an Author whose
reported bookCount (the stored counter, which is what allAuthors returns in
variant B) is 1, while the number of Books whose author field equals that
Author generated id (1) is 0 - the book was stored with the author NAME
string in its author field.  The claim asserts the two quantities are equal
under either counting strategy. -/
theorem variantB_bookCount_drift :
    tolkienCountsB (addBookB emptyStore (some bob) hobbitArgs noFail).store =
      [some 1] ∧
    (((addBookB emptyStore (some bob) hobbitArgs noFail).store.books.filter
      (fun b => decide (b.author = Ref.oid 1))).length = 0) ∧
    ((addBookB emptyStore (some bob) hobbitArgs noFail).store.authors.map
      (fun a => a.id) = [1]) := by
  decide

/-- C2.  Refuted: on a store holding one book whose genres contain fantasy,
variant A allBooks with the genre filter returns the empty list (the query
filters a field named genre, which Book documents do not have), variant B
throws a TypeError on that filter, variant A throws a ReferenceError on the
author filter, and yet the book the claim expects to be returned is exactly
the one in the store. -/
theorem allBooks_filters_broken :
    allBooksA libStore none (some "fantasy") = .ok [] ∧
    allBooksB libStore none (some "fantasy") =
      .error (.typeError "cannot read property find of undefined") ∧
    allBooksA libStore (some "Tolkien") none =
      .error (.referenceError "books is not defined") ∧
    libStore.books.filter (fun b => b.genres.contains "fantasy") =
      libStore.books := by
  decide

/-- C3.  Refuted: on a store holding one Author named Tolkien, an
authenticated variant A editAuthor on the unknown name Rowling throws a
UserInputError instead of returning null (the empty result array is truthy,
so the null branch is dead and indexing it throws); on the known name
Tolkien it returns null instead of the updated Author; and variant B on the
unknown name Rowling updates and returns the FIRST stored Author
(Tolkien), mutating the store the claim requires untouched. -/
theorem editAuthor_contract_broken :
    (editAuthorA libStore (some bob) "Rowling" 1965 none).result =
      .error (.userInputError "cannot read property of undefined"
        (.authorArgs "Rowling" 1965)) ∧
    (editAuthorA libStore (some bob) "Rowling" 1965 none).store = libStore ∧
    (editAuthorA libStore (some bob) "Tolkien" 1965 none).result = .ok none ∧
    (editAuthorB libStore (some bob) "Rowling" 1965 none).result =
      .ok (some ⟨0, "Tolkien", some 1965, none⟩) ∧
    (editAuthorB libStore (some bob) "Rowling" 1965 none).store.authors =
      [⟨0, "Tolkien", some 1965, none⟩] := by
  decide

/-- C4.  In both variants an addBook call whose context carries no user
throws AuthenticationError and returns the store exactly as it was: no Book
and no Author is created or modified, whatever the arguments and whatever
the data store would have done with the saves. -/
theorem addBook_unauthenticated_noop (s : Store) (args : AddBookArgs)
    (sf : SaveOutcome) :
    addBookA s none args sf =
      ⟨.error (.authenticationError "not authenticated"), s, none⟩ ∧
    addBookB s none args sf =
      ⟨.error (.authenticationError "not authenticated"), s⟩ :=
  ⟨rfl, rfl⟩

/-- C5.  Refuted on variant B: from the empty store, a successful
authenticated addBook persists a Book whose author field holds the raw
string Tolkien - the author NAME - while the only Author record has
generated id 1; no Author id matches the stored reference, so the persisted
Book does not reference the found-or-created Author by id. -/
theorem variantB_book_author_not_id :
    (addBookB emptyStore (some bob) hobbitArgs noFail).result =
      .ok ⟨0, "The Hobbit", 1937, Ref.str "Tolkien", ["fantasy"]⟩ ∧
    (addBookB emptyStore (some bob) hobbitArgs noFail).store.books.map
      (fun b => b.author) = [Ref.str "Tolkien"] ∧
    (addBookB emptyStore (some bob) hobbitArgs noFail).store.books.all
      (fun b => (addBookB emptyStore (some bob) hobbitArgs noFail).store.authors.any
        (fun a => b.author == Ref.oid a.id)) = false := by
  decide

/-- C7.  Refuted on variant B: when persisting the Book fails (the book
save rejects), the authenticated addBook still returns the created Book and
raises no UserInputError - the save() promise is not awaited, so the catch
block never fires - while the Book is not persisted and the Author counter
was already incremented.  The claim requires a UserInputError carrying the
arguments and no returned Book. -/
theorem variantB_save_failure_unreported :
    (addBookB emptyStore (some bob) hobbitArgs
      ⟨none, some "validation failed"⟩).result =
      .ok ⟨0, "The Hobbit", 1937, Ref.str "Tolkien", ["fantasy"]⟩ ∧
    (addBookB emptyStore (some bob) hobbitArgs
      ⟨none, some "validation failed"⟩).store.books = [] ∧
    (addBookB emptyStore (some bob) hobbitArgs
      ⟨none, some "validation failed"⟩).store.authors.map
      (fun a => (a.name, a.bookCount)) = [("Tolkien", some 1)] := by
  decide

/-- C10.  In variant B the editAuthor lookup reads args.author, an argument
editAuthor never receives, so for any fixed store, any authenticated user,
any setBornTo and any save outcome, two calls differing only in the name
argument return the same result and leave the same store. -/
theorem editAuthorB_name_independent (s : Store) (u : User) (n1 n2 : String)
    (b : Int) (save : Option String) :
    editAuthorB s (some u) n1 b save = editAuthorB s (some u) n2 b save :=
  rfl

/-- C8.  login fails with UserInputError wrong credentials exactly when no
User carries the given username or the password is not the fixed accepted
string; otherwise it returns a Token signing the found User, and verifying
that token decodes back to exactly that username and id. -/
theorem login_contract (s : Store) (secret username passwd : String) :
    (login s secret username passwd =
        .error (.userInputError "wrong credentials" .noArgs) ↔
      ((∀ u ∈ s.users, u.username ≠ username) ∨ passwd ≠ "password")) ∧
    (∀ user, s.users.find? (fun u => decide (u.username = username)) = some user →
      passwd = "password" →
      login s secret username passwd =
        .ok ⟨jwtSign ⟨user.username, user.id⟩ secret⟩ ∧
      jwtVerify (jwtSign ⟨user.username, user.id⟩ secret) secret =
        .ok ⟨user.username, user.id⟩) := by
  refine ⟨⟨?_, ?_⟩, ?_⟩
  · intro h
    cases hf : s.users.find? (fun u => decide (u.username = username)) with
    | none =>
      left
      intro u hu hequ
      have hnone := List.find?_eq_none.mp hf u hu
      simp [hequ] at hnone
    | some user =>
      right
      intro hp
      simp only [login, hf, if_pos hp] at h
      exact Except.noConfusion h
  · intro h
    cases hf : s.users.find? (fun u => decide (u.username = username)) with
    | none => simp [login, hf]
    | some user =>
      rcases h with h | h
      · exfalso
        have hm := List.mem_of_find?_eq_some hf
        have hp := List.find?_some hf
        simp only [decide_eq_true_eq] at hp
        exact h user hm hp
      · simp [login, hf, if_neg h]
  · intro user hf hp
    exact ⟨by simp [login, hf, if_pos hp], by simp [jwtVerify, jwtSign]⟩

/-- C8 witness: on a store with one user alice (id 5), login with the right
password returns the token signing alice and id 5, and verification decodes
it back. -/
theorem login_contract_witness :
    userStore.users.find? (fun u => decide (u.username = "alice")) =
      some ⟨5, "alice", "fantasy"⟩ ∧
    login userStore "s3cret" "alice" "password" =
      .ok ⟨jwtSign ⟨"alice", 5⟩ "s3cret"⟩ ∧
    jwtVerify (jwtSign ⟨"alice", 5⟩ "s3cret") "s3cret" = .ok ⟨"alice", 5⟩ :=
  ⟨by decide,
   (login_contract userStore "s3cret" "alice" "password").2
     ⟨5, "alice", "fantasy"⟩ (by decide) rfl⟩

/-- C9.  Context construction: an absent Authorization header, or one whose
text does not start case-insensitively with the bearer marker, yields a
context with no current user and no error; a header carrying a token signed
with the server secret yields the User found by the decoded id, attached as
the current user. -/
theorem context_construction (s : Store) (secret : String)
    (auth : Option AuthHeader) :
    (auth = none → buildContext s secret auth = .ok none) ∧
    (∀ h, auth = some h → hasBearerMarker h.text = false →
      buildContext s secret auth = .ok none) ∧
    (∀ h t, auth = some h → h.token = some t → t.secret = secret →
      hasBearerMarker h.text = true →
      buildContext s secret auth =
        .ok (s.users.find? (fun u => decide (u.id = t.payload.id)))) := by
  refine ⟨?_, ?_, ?_⟩
  · rintro rfl
    rfl
  · rintro h rfl hpre
    simp [buildContext, hpre]
  · rintro h t rfl htok hsec hpre
    simp [buildContext, hpre, htok, jwtVerify, hsec]

/-- C9 witness: on the alice store, an absent header and a Basic header
both give a context with no user, and a Bearer header carrying a token
signed with the server secret for id 5 attaches alice. -/
theorem context_construction_witness :
    buildContext userStore "s3cret" none = .ok none ∧
    buildContext userStore "s3cret" (some ⟨"Basic abc", none⟩) = .ok none ∧
    buildContext userStore "s3cret"
      (some ⟨"Bearer tok", some ⟨⟨"alice", 5⟩, "s3cret"⟩⟩) =
      .ok (some ⟨5, "alice", "fantasy"⟩) :=
  ⟨(context_construction userStore "s3cret" none).1 rfl,
   (context_construction userStore "s3cret" (some ⟨"Basic abc", none⟩)).2.1
     ⟨"Basic abc", none⟩ rfl (by decide),
   (context_construction userStore "s3cret"
       (some ⟨"Bearer tok", some ⟨⟨"alice", 5⟩, "s3cret"⟩⟩)).2.2
     ⟨"Bearer tok", some ⟨⟨"alice", 5⟩, "s3cret"⟩⟩ ⟨⟨"alice", 5⟩, "s3cret"⟩
     rfl rfl rfl (by decide)⟩

/-- C6.  The Tolkien scenario, in both variants: from any id-fresh store
with no Author named Tolkien, an authenticated addBook of The Hobbit with
author Tolkien implicitly creates the Author, after which allAuthors shows
exactly one Author named Tolkien with reported bookCount 1; a second
authenticated addBook with the same author name leaves exactly one Tolkien
Author record, with reported bookCount 2. -/
theorem addBook_tolkien_scenario (s : Store) (u : User) (args2 : AddBookArgs)
    (hwf : s.WF) (hT : ∀ a ∈ s.authors, a.name ≠ "Tolkien")
    (h2 : args2.author = "Tolkien") :
    tolkienScenarioHolds s u args2 := by
  obtain ⟨hwfa, hwfb⟩ := hwf
  have hfind : s.authors.find? (fun a => decide (a.name = "Tolkien")) = none :=
    List.find?_eq_none.mpr (fun a ha => by simp [hT a ha])
  have hfilT : s.authors.filter (fun a => decide (a.name = "Tolkien")) = [] :=
    List.filter_eq_nil_iff.mpr (fun a ha => by simp [hT a ha])
  have hfind2 : List.find? (fun (a : Author) => decide (a.name = "Tolkien"))
      [{ id := s.nextId, name := "Tolkien", born := none, bookCount := none }] =
      some { id := s.nextId, name := "Tolkien", born := none, bookCount := none } := by
    simp
  have hfindB : List.find? (fun (a : Author) => decide (a.name = "Tolkien"))
      [{ id := s.nextId + 1, name := "Tolkien", born := none, bookCount := some 1 }] =
      some { id := s.nextId + 1, name := "Tolkien", born := none, bookCount := some 1 } := by
    simp
  have h1 : List.filter (fun (a : Author) => decide (a.name = "Tolkien"))
      [{ id := s.nextId, name := "Tolkien", born := none, bookCount := none }] =
      [{ id := s.nextId, name := "Tolkien", born := none, bookCount := none }] := by
    simp
  refine ⟨?_, ?_, ?_, ?_⟩
  · rw [tolkienCountsA_eq]
    simp only [addBookA, hobbitArgs, noFail, hfind]
    rw [List.filter_append, hfilT, List.nil_append]
    simp only [h1, List.map_cons, List.map_nil, List.filter_append,
      filter_fresh_eq_nil hwfb (Nat.le_refl _), List.nil_append]
    simp
  · rw [tolkienCountsA_eq]
    simp only [addBookA, hobbitArgs, noFail, hfind, h2, List.find?_append,
      Option.none_or, hfind2]
    rw [List.filter_append, hfilT, List.nil_append]
    simp only [h1, List.map_cons, List.map_nil, List.filter_append,
      filter_fresh_eq_nil hwfb (Nat.le_refl _), List.nil_append]
    simp
  · simp only [tolkienCountsB, allAuthorsB, addBookB, hobbitArgs, noFail, hfind]
    rw [List.filter_append, hfilT, List.nil_append]
    simp
  · simp only [tolkienCountsB, allAuthorsB, addBookB, hobbitArgs, noFail, hfind,
      h2, List.find?_append, Option.none_or, hfindB]
    rw [filter_tolkien_map (fun a =>
        if a.id = s.nextId + 1 then
          { id := a.id, name := a.name, born := a.born,
            bookCount := bumpCount a.bookCount }
        else a) (fun a => by by_cases h : a.id = s.nextId + 1 <;> simp [h])]
    rw [List.filter_append, hfilT, List.nil_append]
    simp [bumpCount]

/-- C6 witness: the scenario instantiated at the empty store, an
authenticated user, and a second book also authored by Tolkien. -/
theorem addBook_tolkien_scenario_witness :
    emptyStore.WF ∧ (∀ a ∈ emptyStore.authors, a.name ≠ "Tolkien") ∧
    silmarilArgs.author = "Tolkien" ∧
    tolkienScenarioHolds emptyStore bob silmarilArgs :=
  ⟨by decide, by decide, rfl,
   addBook_tolkien_scenario emptyStore bob silmarilArgs (by decide) (by decide) rfl⟩

end LibraryBackend
